import Mathlib

/-!
Verification of the MongoLog logging handlers (`src/MongoLog/`).

The development shallowly embeds the buffer/flush engine of
`BufferedMongoLog.py` and `PersistentBufferedMongoLog.py`, the
per-record document builders of all four handler variants, and the
dispatch behaviour the buffered handlers inherit from CPython's
`logging.handlers.MemoryHandler` (which both classes subclass without
overriding `emit`/`shouldFlush`).

The Mongo transport (pymongo) is an external collaborator: each flush is
parameterised by the outcome the transport produces for that call
(`BulkOutcome`), exactly the outcomes the source distinguishes:
a returned `BulkWriteResult` (with its `acknowledged` flag and
`inserted_count`), a raised `BulkWriteError` carrying a `details` dict,
or a raised `ConnectionFailure`.
-/

namespace MongoLog

/-- A log record, with exactly the `logging.LogRecord` fields the handlers
read: `created` (event creation POSIX time), process and thread identity,
source location, message, and severity name/number. The numeric POSIX
timestamp is modelled as an integer; no handler computes with it beyond
passing it to `datetime.utcfromtimestamp`. -/
structure Record where
  created : Int
  processName : String
  process : Int
  threadName : String
  thread : Int
  pathname : String
  filename : String
  module : String
  funcName : String
  lineno : Int
  msg : String
  levelname : String
  levelno : Int
deriving DecidableEq, Repr

/-- A UTC datetime as produced by `datetime.utcfromtimestamp`: determined
by (and only by) the POSIX seconds it was converted from. -/
structure UtcDatetime where
  posixSeconds : Int
deriving DecidableEq, Repr

/-- `datetime.utcfromtimestamp(record.created)`: the conversion from POSIX
seconds to a UTC calendar datetime, modelled as the injective tagging of
the seconds value. -/
def Datetime.utcfromtimestamp (seconds : Int) : UtcDatetime :=
  ⟨seconds⟩

/-- A BSON value as it appears in the documents the handlers build. -/
inductive BsonValue where
  | str (s : String)
  | int (n : Int)
  | time (t : UtcDatetime)
deriving DecidableEq, Repr

/-- A document handed to the Mongo driver: an ordered list of
field-name/value pairs. -/
abbrev Document := List (String × BsonValue)

/-- The outcome the pymongo transport produces for one `bulk_write` call,
as the source distinguishes them (`BufferedMongoLog.py` lines 104-136):
`result acknowledged nInserted` is a returned `BulkWriteResult`;
`bulkWriteError details` is a raised `pymongo.errors.BulkWriteError`
whose `details` dict is modelled as an association list;
`connectionFailure` is a raised `pymongo.errors.ConnectionFailure`. -/
inductive BulkOutcome where
  | result (acknowledged : Bool) (nInserted : Nat)
  | bulkWriteError (details : List (String × Nat))
  | connectionFailure
deriving DecidableEq, Repr

/-- Python's `dict.get(key, default)` on the modelled `details` dict. -/
def dictGetNat (d : List (String × Nat)) (key : String) (dflt : Nat) : Nat :=
  match d.find? (fun kv => kv.1 == key) with
  | some kv => kv.2
  | none => dflt

/-- The exception type pymongo result objects raise when a property such as
`inserted_count` is read off an unacknowledged write result. -/
def pyInvalidOperation : String := "pymongo.errors.InvalidOperation"

/-- How one `flush()` call exits: the buffer it leaves behind, the
exception (if any) escaping past `flush`'s boundary, whether the handler
lock was released on exit, whether a fresh transport connection was opened
during the call, and the ordered batch of documents submitted to
`bulk_write` (`none` when `flush` returned before the write call). -/
structure FlushExit where
  buffer : List Record
  raised : Option String
  lockReleased : Bool
  openedConnection : Bool
  submitted : Option (List Document)
deriving DecidableEq, Repr

/-- The document `BufferedMongoLog.flush` builds per buffered record
(`BufferedMongoLog.py` lines 105-120). -/
def BufferedMongoLog.logDocument (record : Record) : Document :=
  [("datetime", .time (Datetime.utcfromtimestamp record.created)),
   ("processName", .str record.processName),
   ("processId", .int record.process),
   ("threadName", .str record.threadName),
   ("threadId", .int record.thread),
   ("pathname", .str record.pathname),
   ("filename", .str record.filename),
   ("module", .str record.module),
   ("funcName", .str record.funcName),
   ("lineno", .int record.lineno),
   ("msg", .str record.msg),
   ("levelname", .str record.levelname),
   ("levelno", .int record.levelno)]

/-- `BufferedMongoLog.flush` (`BufferedMongoLog.py` lines 86-139) as a
function of the buffer at entry and the transport's outcome for this call:
acquire the lock; return at once if the buffer is empty; otherwise open a
fresh client (`with Mongo(...)`), submit the whole buffer as an ordered
`bulk_write`, and prune the buffer by `self.buffer[:k] = []` where `k` is
`bulk_result.inserted_count` on a returned result or
`bwe.details.get('nInserted', 0)` on a `BulkWriteError`; a
`ConnectionFailure` is caught and leaves the buffer untouched; the
`finally` releases the lock on every path. On an unacknowledged returned
result the code passes over the `acknowledged` check and then reads
`bulk_result.inserted_count`, which pymongo raises
`InvalidOperation` on for unacknowledged results; neither `except` clause
catches it, so it escapes `flush` (after the `finally` releases the lock).
Python's slice deletion `buffer[:k] = []` removes the first
`min(k, len(buffer))` elements, which is `List.drop k`. -/
def BufferedMongoLog.flush (buffer : List Record) (transport : BulkOutcome) :
    FlushExit :=
  if buffer.isEmpty then
    { buffer := buffer, raised := none, lockReleased := true,
      openedConnection := false, submitted := none }
  else
    match transport with
    | .result acknowledged nInserted =>
        if acknowledged then
          { buffer := buffer.drop nInserted, raised := none,
            lockReleased := true, openedConnection := true,
            submitted := some (buffer.map BufferedMongoLog.logDocument) }
        else
          { buffer := buffer, raised := some pyInvalidOperation,
            lockReleased := true, openedConnection := true,
            submitted := some (buffer.map BufferedMongoLog.logDocument) }
    | .bulkWriteError details =>
        { buffer := buffer.drop (dictGetNat details "nInserted" 0),
          raised := none, lockReleased := true, openedConnection := true,
          submitted := some (buffer.map BufferedMongoLog.logDocument) }
    | .connectionFailure =>
        { buffer := buffer, raised := none, lockReleased := true,
          openedConnection := true,
          submitted := some (buffer.map BufferedMongoLog.logDocument) }

/-- The document `PersistentBufferedMongoLog.flush` builds per buffered
record (`PersistentBufferedMongoLog.py` lines 100-115). -/
def PersistentBufferedMongoLog.logDocument (record : Record) : Document :=
  [("datetime", .time (Datetime.utcfromtimestamp record.created)),
   ("processName", .str record.processName),
   ("processId", .int record.process),
   ("threadName", .str record.threadName),
   ("threadId", .int record.thread),
   ("pathname", .str record.pathname),
   ("filename", .str record.filename),
   ("module", .str record.module),
   ("funcName", .str record.funcName),
   ("lineno", .int record.lineno),
   ("msg", .str record.msg),
   ("levelname", .str record.levelname),
   ("levelno", .int record.levelno)]

/-- `PersistentBufferedMongoLog.flush` (`PersistentBufferedMongoLog.py`
lines 84-134): identical control flow and buffer pruning to
`BufferedMongoLog.flush`, except that the write goes through the
persistent `self.client` — no connection is opened during the call. -/
def PersistentBufferedMongoLog.flush (buffer : List Record)
    (transport : BulkOutcome) : FlushExit :=
  if buffer.isEmpty then
    { buffer := buffer, raised := none, lockReleased := true,
      openedConnection := false, submitted := none }
  else
    match transport with
    | .result acknowledged nInserted =>
        if acknowledged then
          { buffer := buffer.drop nInserted, raised := none,
            lockReleased := true, openedConnection := false,
            submitted := some (buffer.map PersistentBufferedMongoLog.logDocument) }
        else
          { buffer := buffer, raised := some pyInvalidOperation,
            lockReleased := true, openedConnection := false,
            submitted := some (buffer.map PersistentBufferedMongoLog.logDocument) }
    | .bulkWriteError details =>
        { buffer := buffer.drop (dictGetNat details "nInserted" 0),
          raised := none, lockReleased := true, openedConnection := false,
          submitted := some (buffer.map PersistentBufferedMongoLog.logDocument) }
    | .connectionFailure =>
        { buffer := buffer, raised := none, lockReleased := true,
          openedConnection := false,
          submitted := some (buffer.map PersistentBufferedMongoLog.logDocument) }

/-- The document `SimpleMongoLog.emit` inserts per record
(`SimpleMongoLog.py` lines 89-104). -/
def SimpleMongoLog.logDocument (record : Record) : Document :=
  [("datetime", .time (Datetime.utcfromtimestamp record.created)),
   ("processName", .str record.processName),
   ("processId", .int record.process),
   ("threadName", .str record.threadName),
   ("threadId", .int record.thread),
   ("pathname", .str record.pathname),
   ("filename", .str record.filename),
   ("module", .str record.module),
   ("funcName", .str record.funcName),
   ("lineno", .int record.lineno),
   ("msg", .str record.msg),
   ("levelname", .str record.levelname),
   ("levelno", .int record.levelno)]

/-- The document `PersistentMongoLog.emit` inserts per record
(`PersistentMongoLog.py` lines 81-96). -/
def PersistentMongoLog.logDocument (record : Record) : Document :=
  [("datetime", .time (Datetime.utcfromtimestamp record.created)),
   ("processName", .str record.processName),
   ("processId", .int record.process),
   ("threadName", .str record.threadName),
   ("threadId", .int record.thread),
   ("pathname", .str record.pathname),
   ("filename", .str record.filename),
   ("module", .str record.module),
   ("funcName", .str record.funcName),
   ("lineno", .int record.lineno),
   ("msg", .str record.msg),
   ("levelname", .str record.levelname),
   ("levelno", .int record.levelno)]

/-- The mutable state the buffered handlers inherit from
`logging.handlers.MemoryHandler`: the buffer plus the configured
`capacity` and `flushLevel`. -/
structure MemoryHandlerState where
  buffer : List Record
  capacity : Nat
  flushLevel : Int
deriving DecidableEq, Repr

/-- Inherited behaviour: `MemoryHandler.shouldFlush` from CPython's
`logging/handlers.py` (both buffered handlers subclass `MemoryHandler`
without overriding it): `len(self.buffer) >= self.capacity or
record.levelno >= self.flushLevel`, evaluated after the record has been
appended. -/
def MemoryHandler.shouldFlush (s : MemoryHandlerState) (record : Record) :
    Bool :=
  decide (s.buffer.length ≥ s.capacity) || decide (record.levelno ≥ s.flushLevel)

/-- Inherited behaviour: `BufferingHandler.emit` from CPython's
`logging/handlers.py` (neither buffered handler overrides it): append the
record to the buffer, then call `self.flush()` — here the overridden
`BufferedMongoLog.flush` — when `shouldFlush` holds. Returns the new state
together with whether a flush was invoked. The transport outcome is
consumed only when the flush fires. -/
def BufferedMongoLog.emit (s : MemoryHandlerState) (record : Record)
    (transport : BulkOutcome) : MemoryHandlerState × Bool :=
  let appended : MemoryHandlerState := { s with buffer := s.buffer ++ [record] }
  if MemoryHandler.shouldFlush appended record then
    ({ appended with
        buffer := (BufferedMongoLog.flush appended.buffer transport).buffer },
      true)
  else
    (appended, false)

/-- Inherited behaviour: `BufferedMongoLog` does not override `close`, so
it runs CPython's `MemoryHandler.close`: with the default
`flushOnClose=True` it calls `self.flush()` (the overridden
`BufferedMongoLog.flush`), and its `finally` runs `BufferingHandler.close`,
which calls `self.flush()` once more. The two transport outcomes are those
of the two flush calls; the result is the pair of their exits (first call,
second call). -/
def BufferedMongoLog.close (buffer : List Record)
    (t1 t2 : BulkOutcome) : FlushExit × FlushExit :=
  let first := BufferedMongoLog.flush buffer t1
  (first, BufferedMongoLog.flush first.buffer t2)

/-- State of a `PersistentBufferedMongoLog` handler relevant to `close`:
its buffer and whether its persistent client connection is open. -/
structure PersistentHandlerState where
  buffer : List Record
  clientOpen : Bool
deriving DecidableEq, Repr

/-- `PersistentBufferedMongoLog.close` (`PersistentBufferedMongoLog.py`
lines 136-139): `self.client.close()` and nothing else — the override
replaces the inherited flushing `MemoryHandler.close`. The second
component records the batch submitted to the transport during the call:
always `none`, no write is attempted. -/
def PersistentBufferedMongoLog.close (s : PersistentHandlerState) :
    PersistentHandlerState × Option (List Document) :=
  ({ s with clientOpen := false }, none)

/-- An operation against a buffered handler: emitting one record, or an
explicit `flush()` call. -/
inductive HandlerOp where
  | emitRecord (record : Record)
  | flushNow
deriving DecidableEq, Repr

/-- Run a list of operations against a `BufferedMongoLog` handler, the
transport's outcome for each flush being a function of the batch it is
given. -/
def run (transport : List Record → BulkOutcome) (s : MemoryHandlerState) :
    List HandlerOp → MemoryHandlerState
  | [] => s
  | .emitRecord r :: ops =>
      run transport
        (BufferedMongoLog.emit s r (transport (s.buffer ++ [r]))).1 ops
  | .flushNow :: ops =>
      run transport
        { s with
            buffer := (BufferedMongoLog.flush s.buffer (transport s.buffer)).buffer }
        ops

/-- A transport in which every ordered bulk write fully succeeds:
`bulk_write` returns an acknowledged result with `inserted_count` equal to
the batch size. -/
def okTransport (batch : List Record) : BulkOutcome :=
  .result true batch.length

/-- A transport in which every call raises
`pymongo.errors.ConnectionFailure`. -/
def failTransport (_ : List Record) : BulkOutcome :=
  .connectionFailure

/-- A concrete record fixture: index `i`, severity `levelno`/`levelname`. -/
def sampleRecord (i : Nat) (levelno : Int) (levelname : String) : Record :=
  { created := (i : Int), processName := "MainProcess", process := 7,
    threadName := "MainThread", thread := 11, pathname := "/srv/app.py",
    filename := "app.py", module := "app", funcName := "work",
    lineno := (10 + i : Int), msg := "event", levelname := levelname,
    levelno := levelno }

/-- An INFO-severity fixture record (levelno 20). -/
def infoRecord (i : Nat) : Record := sampleRecord i 20 "INFO"

/-- An ERROR-severity fixture record (levelno 40). -/
def errorRecord (i : Nat) : Record := sampleRecord i 40 "ERROR"

/-- A five-record batch fixture. -/
def fiveBatch : List Record :=
  [infoRecord 0, infoRecord 1, infoRecord 2, infoRecord 3, infoRecord 4]

/-- Capacity-trigger scenario, first emission: capacity 3, flushLevel 40
(ERROR), one INFO record emitted. The transport outcome argument is only
consumed if a flush fires. -/
def capScenarioA : MemoryHandlerState × Bool :=
  BufferedMongoLog.emit ⟨[], 3, 40⟩ (infoRecord 0) .connectionFailure

/-- Capacity-trigger scenario, second emission. -/
def capScenarioB : MemoryHandlerState × Bool :=
  BufferedMongoLog.emit capScenarioA.1 (infoRecord 1) .connectionFailure

/-- Capacity-trigger scenario, third emission, with a fully successful
transport (acknowledged, `inserted_count` 3). -/
def capScenarioC : MemoryHandlerState × Bool :=
  BufferedMongoLog.emit capScenarioB.1 (infoRecord 2) (.result true 3)

/-- Severity-trigger scenario, first emission: capacity 100, flushLevel 40
(ERROR), one INFO record emitted. -/
def sevScenarioA : MemoryHandlerState × Bool :=
  BufferedMongoLog.emit ⟨[], 100, 40⟩ (infoRecord 0) .connectionFailure

/-- Severity-trigger scenario, second emission: an ERROR record, with a
fully successful transport (acknowledged, `inserted_count` 2). -/
def sevScenarioB : MemoryHandlerState × Bool :=
  BufferedMongoLog.emit sevScenarioA.1 (errorRecord 1) (.result true 2)

/-- Invariant maintained by every handler operation when the transport
fully succeeds: the buffer is empty, or strictly below capacity. -/
def lenOk (s : MemoryHandlerState) : Prop :=
  s.buffer.length = 0 ∨ s.buffer.length < s.capacity

/-- A flush whose transport acknowledges full success (`inserted_count`
equal to the batch size) leaves an empty buffer. -/
theorem flush_okTransport_buffer (buffer : List Record) :
    (BufferedMongoLog.flush buffer (okTransport buffer)).buffer = [] := by
  cases buffer with
  | nil => rfl
  | cons a l =>
      simp [BufferedMongoLog.flush, okTransport, List.drop_succ_cons,
        List.drop_length]

/-- `emit` never changes the configured capacity. -/
theorem emit_fst_capacity (s : MemoryHandlerState) (record : Record)
    (t : BulkOutcome) :
    (BufferedMongoLog.emit s record t).1.capacity = s.capacity := by
  by_cases h : MemoryHandler.shouldFlush { s with buffer := s.buffer ++ [record] } record <;>
    simp [BufferedMongoLog.emit, h]

/-- One emission under a fully successful transport re-establishes `lenOk`:
either the triggered flush emptied the buffer, or no flush fired and the
post-append length is strictly below capacity. -/
theorem emit_ok_lenOk (s : MemoryHandlerState) (record : Record) :
    lenOk (BufferedMongoLog.emit s record (okTransport (s.buffer ++ [record]))).1 := by
  by_cases h : MemoryHandler.shouldFlush { s with buffer := s.buffer ++ [record] } record
  · left
    simp [BufferedMongoLog.emit, h, flush_okTransport_buffer]
  · right
    simp [BufferedMongoLog.emit, h]
    simp [MemoryHandler.shouldFlush] at h
    omega

/-- Running any operation sequence under a fully successful transport
keeps `lenOk` and preserves the configured capacity. -/
theorem run_ok_lenOk (ops : List HandlerOp) (s : MemoryHandlerState)
    (h : lenOk s) :
    lenOk (run okTransport s ops)
    ∧ (run okTransport s ops).capacity = s.capacity := by
  induction ops generalizing s with
  | nil => exact ⟨h, rfl⟩
  | cons op ops ih =>
      cases op with
      | emitRecord r =>
          have hrun : run okTransport s (.emitRecord r :: ops)
              = run okTransport
                  (BufferedMongoLog.emit s r (okTransport (s.buffer ++ [r]))).1 ops := rfl
          rw [hrun]
          obtain ⟨h1, h2⟩ := ih _ (emit_ok_lenOk s r)
          exact ⟨h1, h2.trans (emit_fst_capacity s r _)⟩
      | flushNow =>
          have hrun : run okTransport s (.flushNow :: ops)
              = run okTransport
                  { s with
                      buffer := (BufferedMongoLog.flush s.buffer (okTransport s.buffer)).buffer }
                  ops := rfl
          rw [hrun]
          exact ih _ (Or.inl (by simp [flush_okTransport_buffer]))

/-- C1: for a flush whose ordered batch the transport confirms as K records
written (via an acknowledged result with `inserted_count` K, or a
`BulkWriteError` whose details report `nInserted` K), with
0 ≤ K ≤ batch size at flush start, both buffered handlers leave exactly
the pre-flush buffer with its first K records removed, the remainder in
original order; in particular, for a 5-record batch with 3 confirmed and a
failure on the 4th, exactly the last 2 records remain, in order. -/
theorem C1_flush_drains_confirmed_first_k (buffer : List Record) (k : Nat)
    (hk : k ≤ buffer.length) :
    (BufferedMongoLog.flush buffer (.result true k)).buffer = buffer.drop k
    ∧ (BufferedMongoLog.flush buffer (.bulkWriteError [("nInserted", k)])).buffer
        = buffer.drop k
    ∧ (PersistentBufferedMongoLog.flush buffer (.result true k)).buffer
        = buffer.drop k
    ∧ (PersistentBufferedMongoLog.flush buffer (.bulkWriteError [("nInserted", k)])).buffer
        = buffer.drop k
    ∧ buffer.take k ++ (BufferedMongoLog.flush buffer (.result true k)).buffer
        = buffer
    ∧ (BufferedMongoLog.flush fiveBatch (.bulkWriteError [("nInserted", 3)])).buffer
        = [infoRecord 3, infoRecord 4] := by
  have hdict : dictGetNat [("nInserted", k)] "nInserted" 0 = k := by
    simp [dictGetNat]
  cases buffer with
  | nil =>
      refine ⟨by simp [BufferedMongoLog.flush], by simp [BufferedMongoLog.flush],
        by simp [PersistentBufferedMongoLog.flush],
        by simp [PersistentBufferedMongoLog.flush],
        by simp [BufferedMongoLog.flush], by decide⟩
  | cons a l =>
      refine ⟨by simp [BufferedMongoLog.flush],
        by simp [BufferedMongoLog.flush, hdict],
        by simp [PersistentBufferedMongoLog.flush],
        by simp [PersistentBufferedMongoLog.flush, hdict],
        ?_, by decide⟩
      simp [BufferedMongoLog.flush, List.take_append_drop]

/-- C1 witness: the 5-record batch with K = 3 discharges the hypothesis. -/
theorem C1_flush_drains_confirmed_first_k_witness :
    3 ≤ fiveBatch.length
    ∧ (BufferedMongoLog.flush fiveBatch (.bulkWriteError [("nInserted", 3)])).buffer
        = [infoRecord 3, infoRecord 4] :=
  ⟨by decide,
    (C1_flush_drains_confirmed_first_k fiveBatch 3 (by decide)).2.2.2.2.2⟩

/-- C2: `emit` appends the record to the buffer first (append never
fails), then invokes a flush of the entire current buffer exactly when the
record's severity reaches `flushLevel` or the post-append buffer length
reaches `capacity`; with capacity 3 and threshold ERROR, three INFO
emissions trigger exactly one flush, after the third append, draining all
3 on full transport success; with capacity 100, an INFO then an ERROR
emission triggers a flush after the ERROR emission that drains both. -/
theorem C2_dispatch_policy (s : MemoryHandlerState) (record : Record)
    (t : BulkOutcome) :
    ((BufferedMongoLog.emit s record t).2 = true
      ↔ (record.levelno ≥ s.flushLevel ∨ s.buffer.length + 1 ≥ s.capacity))
    ∧ (BufferedMongoLog.emit s record t).1.buffer
        = (if MemoryHandler.shouldFlush { s with buffer := s.buffer ++ [record] } record
            then (BufferedMongoLog.flush (s.buffer ++ [record]) t).buffer
            else s.buffer ++ [record])
    ∧ capScenarioA.2 = false ∧ capScenarioB.2 = false
    ∧ capScenarioC.2 = true ∧ capScenarioC.1.buffer = []
    ∧ sevScenarioA.2 = false ∧ sevScenarioB.2 = true
    ∧ sevScenarioB.1.buffer = [] := by
  refine ⟨?_, ?_, by decide, by decide, by decide, by decide, by decide,
    by decide, by decide⟩
  · by_cases h : MemoryHandler.shouldFlush { s with buffer := s.buffer ++ [record] } record <;>
      · simp [BufferedMongoLog.emit, h]
        simp [MemoryHandler.shouldFlush] at h
        omega
  · by_cases h : MemoryHandler.shouldFlush { s with buffer := s.buffer ++ [record] } record <;>
      simp [BufferedMongoLog.emit, h]

/-- C3 evaluation at the failing input: when the transport returns an
unacknowledged `BulkWriteResult`, `flush` of either buffered handler
escapes with `pymongo.errors.InvalidOperation` (raised by reading
`bulk_result.inserted_count` off an unacknowledged result; neither
`except` clause catches it); the `finally` still releases the lock and the
buffer is left unchanged. -/
theorem C3_unacknowledged_result_escapes_flush :
    (BufferedMongoLog.flush [infoRecord 0] (.result false 0)).raised
        = some pyInvalidOperation
    ∧ (BufferedMongoLog.flush [infoRecord 0] (.result false 0)).lockReleased = true
    ∧ (BufferedMongoLog.flush [infoRecord 0] (.result false 0)).buffer = [infoRecord 0]
    ∧ (PersistentBufferedMongoLog.flush [infoRecord 0] (.result false 0)).raised
        = some pyInvalidOperation
    ∧ (PersistentBufferedMongoLog.flush [infoRecord 0] (.result false 0)).lockReleased
        = true := by
  decide

/-- C4: a flush whose transport raises `ConnectionFailure` drains zero
records: the post-flush buffer of either buffered handler is exactly the
pre-flush buffer, unchanged and in the same order — in particular for the
5-record batch. -/
theorem C4_connection_failure_retains_buffer (buffer : List Record) :
    (BufferedMongoLog.flush buffer .connectionFailure).buffer = buffer
    ∧ (PersistentBufferedMongoLog.flush buffer .connectionFailure).buffer = buffer
    ∧ (BufferedMongoLog.flush fiveBatch .connectionFailure).buffer = fiveBatch := by
  refine ⟨?_, ?_, by decide⟩ <;> cases buffer <;> rfl

/-- C5 counterexample: with capacity 1 and a transport that always raises
`ConnectionFailure`, three emissions leave a buffer of length 3, which
exceeds capacity + 1 = 2 — the claimed bound fails for sequences in which
flushes fail and retain records (each emission appends and the failed
flush retains everything, so the buffer grows without bound). -/
theorem C5_counterexample_failing_transport_exceeds_bound :
    (run failTransport ⟨[], 1, 40⟩
        [.emitRecord (infoRecord 0), .emitRecord (infoRecord 1),
         .emitRecord (infoRecord 2)]).buffer.length = 3
    ∧ ¬ (3 ≤ 1 + 1) := by
  decide

/-- C5 (amended): for every configured capacity and flush level and every
sequence of emit and flush operations from an empty buffer, provided every
flush that fires fully succeeds (acknowledged, all records inserted), the
buffer length never exceeds capacity + 1. -/
theorem C5_capacity_bound_on_successful_transport (capacity : Nat)
    (flushLevel : Int) (ops : List HandlerOp) :
    (run okTransport ⟨[], capacity, flushLevel⟩ ops).buffer.length
      ≤ capacity + 1 := by
  obtain ⟨h1, h2⟩ := run_ok_lenOk ops ⟨[], capacity, flushLevel⟩ (Or.inl rfl)
  have h2' : (run okTransport ⟨[], capacity, flushLevel⟩ ops).capacity
      = capacity := h2
  rcases h1 with h0 | hlt
  · omega
  · rw [h2'] at hlt
    omega

/-- C6 counterexample: `BufferedMongoLog` does not override `close`, so the
inherited `MemoryHandler.close` (with the default `flushOnClose=True`)
flushes: closing a handler holding one buffered record under a fully
successful transport submits a write and empties the buffer — the buffered
records are not left unchanged and a write is attempted, contrary to the
claim. -/
theorem C6_counterexample_inherited_close_flushes :
    (BufferedMongoLog.close [infoRecord 0] (.result true 1) (.result true 1)).2.buffer
        = ([] : List Record)
    ∧ (BufferedMongoLog.close [infoRecord 0] (.result true 1) (.result true 1)).1.submitted
        = some [BufferedMongoLog.logDocument (infoRecord 0)]
    ∧ [infoRecord 0] ≠ ([] : List Record) := by
  decide

/-- C6 (amended): `PersistentBufferedMongoLog.close()` releases the client
connection, leaves the buffer unchanged and attempts no write;
`BufferedMongoLog`, having no `close` override, inherits
`MemoryHandler.close`, which (with `flushOnClose` defaulting to true)
flushes the buffered records before closing — e.g. under a fully
successful transport its close empties the buffer. -/
theorem C6_close_semantics (s : PersistentHandlerState)
    (buffer : List Record) (t2 : BulkOutcome) :
    (PersistentBufferedMongoLog.close s).1.buffer = s.buffer
    ∧ (PersistentBufferedMongoLog.close s).1.clientOpen = false
    ∧ (PersistentBufferedMongoLog.close s).2 = none
    ∧ (BufferedMongoLog.close buffer (okTransport buffer) t2).2.buffer = [] := by
  refine ⟨rfl, rfl, rfl, ?_⟩
  show (BufferedMongoLog.flush
      (BufferedMongoLog.flush buffer (okTransport buffer)).buffer t2).buffer = []
  rw [flush_okTransport_buffer]
  rfl

/-- C7: flushing an empty buffer is an idempotent no-op for both buffered
handlers: it returns at once with the lock released, opens no connection,
submits no write, raises nothing and leaves the buffer empty; repeating it
changes nothing. -/
theorem C7_empty_flush_idempotent_noop (t t2 : BulkOutcome) :
    BufferedMongoLog.flush [] t
      = { buffer := [], raised := none, lockReleased := true,
          openedConnection := false, submitted := none }
    ∧ PersistentBufferedMongoLog.flush [] t
      = { buffer := [], raised := none, lockReleased := true,
          openedConnection := false, submitted := none }
    ∧ BufferedMongoLog.flush (BufferedMongoLog.flush [] t).buffer t2
        = BufferedMongoLog.flush [] t2
    ∧ PersistentBufferedMongoLog.flush
        (PersistentBufferedMongoLog.flush [] t).buffer t2
        = PersistentBufferedMongoLog.flush [] t2 :=
  ⟨rfl, rfl, rfl, rfl⟩

/-- C8: every handler variant builds, per record, the same document of
exactly thirteen fields taken from the corresponding record fields, the
`datetime` field being the record's event-creation time (not flush time);
and a nonempty flush submits exactly this document for each buffered
record, in buffer order. -/
theorem C8_document_shape (record : Record) :
    BufferedMongoLog.logDocument record = PersistentBufferedMongoLog.logDocument record
    ∧ BufferedMongoLog.logDocument record = SimpleMongoLog.logDocument record
    ∧ BufferedMongoLog.logDocument record = PersistentMongoLog.logDocument record
    ∧ BufferedMongoLog.logDocument record =
        [("datetime", .time (Datetime.utcfromtimestamp record.created)),
         ("processName", .str record.processName),
         ("processId", .int record.process),
         ("threadName", .str record.threadName),
         ("threadId", .int record.thread),
         ("pathname", .str record.pathname),
         ("filename", .str record.filename),
         ("module", .str record.module),
         ("funcName", .str record.funcName),
         ("lineno", .int record.lineno),
         ("msg", .str record.msg),
         ("levelname", .str record.levelname),
         ("levelno", .int record.levelno)]
    ∧ (BufferedMongoLog.logDocument record).length = 13
    ∧ (∀ (buffer : List Record) (t : BulkOutcome),
         (BufferedMongoLog.flush buffer t).submitted
           = if buffer.isEmpty then none
             else some (buffer.map BufferedMongoLog.logDocument)) := by
  refine ⟨rfl, rfl, rfl, rfl, rfl, ?_⟩
  intro buffer t
  cases buffer with
  | nil => rfl
  | cons a l =>
      cases t with
      | result acknowledged nInserted => cases acknowledged <;> rfl
      | bulkWriteError details => rfl
      | connectionFailure => rfl

/-- C9: a flush ending in a `BulkWriteError` whose details dict has no
`nInserted` key drains zero records: the count defaults to 0 and both
buffered handlers retain the entire pre-flush buffer unchanged. -/
theorem C9_missing_nInserted_drains_zero (buffer : List Record)
    (details : List (String × Nat))
    (h : details.find? (fun kv => kv.1 == "nInserted") = none) :
    (BufferedMongoLog.flush buffer (.bulkWriteError details)).buffer = buffer
    ∧ (PersistentBufferedMongoLog.flush buffer (.bulkWriteError details)).buffer
        = buffer := by
  have hget : dictGetNat details "nInserted" 0 = 0 := by
    simp [dictGetNat, h]
  cases buffer with
  | nil => exact ⟨rfl, rfl⟩
  | cons a l =>
      constructor <;>
        simp [BufferedMongoLog.flush, PersistentBufferedMongoLog.flush, hget]

/-- C9 witness: a details dict holding only a `writeErrors` count lacks the
`nInserted` key; the 5-record batch is retained in full. -/
theorem C9_missing_nInserted_drains_zero_witness :
    (List.find? (fun kv => kv.1 == "nInserted")
        ([("writeErrors", 1)] : List (String × Nat)) = none)
    ∧ (BufferedMongoLog.flush fiveBatch (.bulkWriteError [("writeErrors", 1)])).buffer
        = fiveBatch :=
  ⟨by decide,
    (C9_missing_nInserted_drains_zero fiveBatch [("writeErrors", 1)] (by decide)).1⟩

/-- C10: the two buffered handlers' flushes compute identical transitions —
equal post-flush buffer, escaping exception, lock discipline and submitted
batch for every pre-flush buffer and transport outcome; they differ only
in that `BufferedMongoLog` opens a fresh connection on every nonempty
flush while `PersistentBufferedMongoLog` opens none (it reuses its
persistent client). -/
theorem C10_flush_variant_equivalence (buffer : List Record)
    (t : BulkOutcome) :
    (BufferedMongoLog.flush buffer t).buffer
        = (PersistentBufferedMongoLog.flush buffer t).buffer
    ∧ (BufferedMongoLog.flush buffer t).raised
        = (PersistentBufferedMongoLog.flush buffer t).raised
    ∧ (BufferedMongoLog.flush buffer t).lockReleased
        = (PersistentBufferedMongoLog.flush buffer t).lockReleased
    ∧ (BufferedMongoLog.flush buffer t).submitted
        = (PersistentBufferedMongoLog.flush buffer t).submitted
    ∧ (BufferedMongoLog.flush buffer t).openedConnection = !buffer.isEmpty
    ∧ (PersistentBufferedMongoLog.flush buffer t).openedConnection = false := by
  cases buffer with
  | nil => exact ⟨rfl, rfl, rfl, rfl, rfl, rfl⟩
  | cons a l =>
      cases t with
      | result acknowledged nInserted =>
          cases acknowledged <;> exact ⟨rfl, rfl, rfl, rfl, rfl, rfl⟩
      | bulkWriteError details => exact ⟨rfl, rfl, rfl, rfl, rfl, rfl⟩
      | connectionFailure => exact ⟨rfl, rfl, rfl, rfl, rfl, rfl⟩

end MongoLog
